import Mathlib

/-
Shallow embedding of the rocket-sensors repository (src/models/loadcell.py,
src/models/mpu.py, src/models/bmp.py).

Modelling conventions:
- Python floats are modelled as exact rationals (ℚ); decimal literals from the
  source (3.28084, 57.2958, 0.0002953) denote the same rational values.
- The physical transport (HX711 / I2C bus) is an injected environment value:
  a record saying whether opening the handle succeeds and what raw values the
  device produces for the reads performed by one call.  A field of `none`
  means that read raises an exception in Python.
- Each adapter instance is a state record mirroring the attributes the Python
  methods mutate (the handle presence, the configuration attributes and the
  tare offsets).  Methods return the Python result (or the raised error, via
  Except), the post-call state, and for the load cell additionally the number
  of handle-open attempts performed by the call.
-/

/-- A protobuf struct value as tested by HasField in the validators:
either a number or a string. -/
inductive PValue where
  | num : ℚ → PValue
  | str : String → PValue
deriving DecidableEq

/-- attrs.get(key, default) restricted to numeric values (the Python code
applies float()/int() to the looked-up value; configurations reaching
reconfigure are assumed well typed, as the validators enforce). -/
def getNumD (attrs : List (String × PValue)) (k : String) (d : ℚ) : ℚ :=
  match attrs.lookup k with
  | some (PValue.num q) => q
  | _ => d

/-- attrs.get(key, default) restricted to string values. -/
def getStrD (attrs : List (String × PValue)) (k : String) (d : String) : String :=
  match attrs.lookup k with
  | some (PValue.str v) => v
  | _ => d

/-- Python int() applied to a real number: truncation toward zero.
Int.tdiv is the Lean operation with exactly that rounding. -/
def truncQ (q : ℚ) : ℤ := q.num.tdiv q.den

/-- The Python exceptions that the adapters raise or propagate. -/
inductive PyErr where
  | notInitialized
  | initError
  | readError
deriving DecidableEq

/-- Values appearing in a do_command result mapping. -/
inductive CmdValue where
  | bool : Bool → CmdValue
  | num : ℚ → CmdValue
  | offsets : List (String × ℚ) → CmdValue
  | errDesc : String → List String → CmdValue
deriving DecidableEq

/-! ## Load cell (src/models/loadcell.py) -/

/-- Mutable attributes of a LoadCell instance.  `hx711 = true` models
`self.hx711 is not None` (an open handle); a fresh instance has `hx711 = false`. -/
structure LoadCellState where
  hx711 : Bool
  gain : ℚ
  doutPin : ℤ
  sckPin : ℤ
  numberOfReadings : ℤ
  tare_offset : ℚ
deriving DecidableEq

/-- The injected HX711 transport for one call: whether constructing/resetting
the HX711 succeeds, and the raw sample list get_raw_data returns
(`none` = the read raises). -/
structure LoadCellHw where
  openOk : Bool
  samples : Option (List ℚ)
deriving DecidableEq

/-- The dictionary returned by LoadCell.get_readings. -/
structure LoadCellReadings where
  doutPin : ℤ
  sckPin : ℤ
  gain : ℚ
  numberOfReadings : ℤ
  tare_offset_kg : ℚ
  measures : List ℚ
  weight : ℚ
deriving DecidableEq

/-- LoadCell.get_hx711: return the handle, creating (and resetting) it if
absent; on creation failure self.hx711 is left None and the error propagates.
The ℕ component counts HX711 construction attempts (mock-transport opens). -/
def LoadCell.get_hx711 (s : LoadCellState) (hw : LoadCellHw) :
    (Except PyErr Unit) × LoadCellState × ℕ :=
  if s.hx711 then (.ok (), s, 0)
  else if hw.openOk then (.ok (), { s with hx711 := true }, 1)
  else (.error .initError, s, 1)

/-- LoadCell.get_readings: open the handle if needed, read
`numberOfReadings` raw samples, convert each via (measure - tare_offset)/8200,
and return the dictionary with the average as `weight`.  Any exception clears
self.hx711 and is re-raised.  (An empty sample list makes the Python
sum/len division raise ZeroDivisionError, hence the empty-list branch.) -/
def LoadCell.get_readings (s : LoadCellState) (hw : LoadCellHw) :
    (Except PyErr LoadCellReadings) × LoadCellState × ℕ :=
  match LoadCell.get_hx711 s hw with
  | (.error e, s1, n) => (.error e, { s1 with hx711 := false }, n)
  | (.ok _, s1, n) =>
    match hw.samples with
    | none => (.error .readError, { s1 with hx711 := false }, n)
    | some ms =>
      if ms = [] then (.error .readError, { s1 with hx711 := false }, n)
      else
        let measures_kg := ms.map (fun m => (m - s1.tare_offset) / 8200)
        (.ok { doutPin := s1.doutPin, sckPin := s1.sckPin, gain := s1.gain,
               numberOfReadings := s1.numberOfReadings,
               tare_offset_kg := s1.tare_offset / 8200,
               measures := measures_kg,
               weight := measures_kg.sum / (measures_kg.length : ℚ) }, s1, n)

/-- LoadCell.tare: read fresh raw samples and store their arithmetic mean as
self.tare_offset; any exception clears self.hx711 and is re-raised. -/
def LoadCell.tare (s : LoadCellState) (hw : LoadCellHw) :
    (Except PyErr Unit) × LoadCellState × ℕ :=
  match LoadCell.get_hx711 s hw with
  | (.error e, s1, n) => (.error e, { s1 with hx711 := false }, n)
  | (.ok _, s1, n) =>
    match hw.samples with
    | none => (.error .readError, { s1 with hx711 := false }, n)
    | some ms =>
      if ms = [] then (.error .readError, { s1 with hx711 := false }, n)
      else (.ok (), { s1 with tare_offset := ms.sum / (ms.length : ℚ) }, n)

/-- LoadCell.do_command: result starts as {key: False for key in command};
only the name "tare" is dispatched (result[name] = tare_offset/8200 after the
call); every other name keeps its initial False value. -/
def LoadCell.do_command (s : LoadCellState) (hw : LoadCellHw) (cmds : List String) :
    (Except PyErr (List (String × CmdValue))) × LoadCellState × ℕ :=
  match cmds with
  | [] => (.ok [], s, 0)
  | name :: rest =>
    if name = "tare" then
      match LoadCell.tare s hw with
      | (.error e, s1, n) => (.error e, s1, n)
      | (.ok _, s1, n) =>
        match LoadCell.do_command s1 hw rest with
        | (.ok r, s2, m) =>
          (.ok ((name, CmdValue.num (s1.tare_offset / 8200)) :: r), s2, n + m)
        | (.error e, s2, m) => (.error e, s2, n + m)
    else
      match LoadCell.do_command s hw rest with
      | (.ok r, s2, m) => (.ok ((name, CmdValue.bool false) :: r), s2, m)
      | (.error e, s2, m) => (.error e, s2, m)

/-- LoadCell.reconfigure: set the attributes from the config (with the source
defaults), then create the HX711 only when the instance has none yet; an
existing handle is kept as is. -/
def LoadCell.reconfigure (s : LoadCellState) (attrs : List (String × PValue))
    (hw : LoadCellHw) : (Except PyErr Unit) × LoadCellState × ℕ :=
  let s1 : LoadCellState :=
    { hx711 := s.hx711,
      gain := getNumD attrs "gain" 64,
      doutPin := truncQ (getNumD attrs "doutPin" 5),
      sckPin := truncQ (getNumD attrs "sckPin" 6),
      numberOfReadings := truncQ (getNumD attrs "numberOfReadings" 3),
      tare_offset := getNumD attrs "tare_offset" 0 }
  if s1.hx711 then (.ok (), s1, 0)
  else
    match LoadCell.get_hx711 s1 hw with
    | (.ok _, s2, n) => (.ok (), s2, n)
    | (.error e, s2, n) => (.error e, s2, n)

/-! ## IMU (src/models/mpu.py) -/

/-- Mutable attributes of an Mpu instance; `sensor = true` models a live
adafruit_mpu6050 handle (`self.sensor` truthy). -/
structure MpuState where
  sensor : Bool
  i2c_address : ℤ
  units : String
  sample_rate : ℤ
  accel_x_offset : ℚ
  accel_y_offset : ℚ
  accel_z_offset : ℚ
  gyro_x_offset : ℚ
  gyro_y_offset : ℚ
  gyro_z_offset : ℚ
deriving DecidableEq

/-- The injected MPU6050 device values for one call; `none` means the
corresponding property read raises. -/
structure MpuHw where
  accel : Option (ℚ × ℚ × ℚ)
  gyro : Option (ℚ × ℚ × ℚ)
  temp : Option ℚ
deriving DecidableEq

/-- The readings dictionary Mpu.get_readings builds from raw values
a (acceleration), g (gyro) and t (temperature): subtract the tare offsets,
then convert according to self.units. -/
def Mpu.readingsOf (s : MpuState) (a g : ℚ × ℚ × ℚ) (t : ℚ) : List (String × ℚ) :=
  let ax := a.1 - s.accel_x_offset
  let ay := a.2.1 - s.accel_y_offset
  let az := a.2.2 - s.accel_z_offset
  let gx := g.1 - s.gyro_x_offset
  let gy := g.2.1 - s.gyro_y_offset
  let gz := g.2.2 - s.gyro_z_offset
  if s.units = "imperial" then
    [("acceleration_x - ft/s²", ax * 3.28084),
     ("acceleration_y - ft/s²", ay * 3.28084),
     ("acceleration_z - ft/s²", az * 3.28084),
     ("gyro_x - deg/s", gx * 57.2958),
     ("gyro_y - deg/s", gy * 57.2958),
     ("gyro_z - deg/s", gz * 57.2958),
     ("temperature - F", t * (9 / 5) + 32)]
  else
    [("acceleration_x - m/s²", ax),
     ("acceleration_y - m/s²", ay),
     ("acceleration_z - m/s²", az),
     ("gyro_x - rad/s", gx),
     ("gyro_y - rad/s", gy),
     ("gyro_z - rad/s", gz),
     ("temperature - C", t)]

/-- Mpu.get_readings: with no sensor, log and return {}; with a sensor, read
acceleration, gyro and temperature, and on any exception log and return {}.
The state (including the handle) is never mutated. -/
def Mpu.get_readings (s : MpuState) (hw : MpuHw) :
    (Except PyErr (List (String × ℚ))) × MpuState :=
  if s.sensor then
    match hw.accel, hw.gyro, hw.temp with
    | some a, some g, some t => (.ok (Mpu.readingsOf s a g t), s)
    | _, _, _ => (.ok [], s)
  else (.ok [], s)

/-- Mpu.tare: raise RuntimeError when the sensor is absent; otherwise read
acceleration then gyro and store them as the six offsets.  Both reads happen
before any assignment, so a read failure re-raises with the offsets (and the
handle) untouched. -/
def Mpu.tare (s : MpuState) (hw : MpuHw) : (Except PyErr Unit) × MpuState :=
  if s.sensor then
    match hw.accel, hw.gyro with
    | some a, some g =>
      (.ok (), { s with accel_x_offset := a.1, accel_y_offset := a.2.1,
                        accel_z_offset := a.2.2, gyro_x_offset := g.1,
                        gyro_y_offset := g.2.1, gyro_z_offset := g.2.2 })
    | _, _ => (.error .readError, s)
  else (.error .notInitialized, s)

/-- Mpu.reset_tare: set the six offsets to 0.0 (plain assignments, no
hardware access, cannot fail). -/
def Mpu.reset_tare (s : MpuState) : MpuState :=
  { s with accel_x_offset := 0, accel_y_offset := 0, accel_z_offset := 0,
           gyro_x_offset := 0, gyro_y_offset := 0, gyro_z_offset := 0 }

/-- Mpu.do_command: result starts as {key: False}; "tare" dispatches to tare
(a raise aborts the whole call) and stores the offsets mapping, "reset_tare"
stores True, and any other name stores the unknown-command error descriptor. -/
def Mpu.do_command (s : MpuState) (hw : MpuHw) (cmds : List String) :
    (Except PyErr (List (String × CmdValue))) × MpuState :=
  match cmds with
  | [] => (.ok [], s)
  | name :: rest =>
    if name = "tare" then
      match Mpu.tare s hw with
      | (.error e, s1) => (.error e, s1)
      | (.ok _, s1) =>
        match Mpu.do_command s1 hw rest with
        | (.ok r, s2) =>
          (.ok ((name, CmdValue.offsets
            [("accel_x_offset", s1.accel_x_offset),
             ("accel_y_offset", s1.accel_y_offset),
             ("accel_z_offset", s1.accel_z_offset),
             ("gyro_x_offset", s1.gyro_x_offset),
             ("gyro_y_offset", s1.gyro_y_offset),
             ("gyro_z_offset", s1.gyro_z_offset)]) :: r), s2)
        | (.error e, s2) => (.error e, s2)
    else if name = "reset_tare" then
      match Mpu.do_command (Mpu.reset_tare s) hw rest with
      | (.ok r, s2) => (.ok ((name, CmdValue.bool true) :: r), s2)
      | (.error e, s2) => (.error e, s2)
    else
      match Mpu.do_command s hw rest with
      | (.ok r, s2) =>
        (.ok ((name, CmdValue.errDesc ("Unknown command: " ++ name)
          ["tare", "reset_tare"]) :: r), s2)
      | (.error e, s2) => (.error e, s2)

/-- Mpu.reconfigure: open the I2C bus and a fresh MPU6050 handle, set the
attributes from the config (with the source defaults) and zero all six
offsets; if opening fails, self.sensor is set to None and the error is
re-raised (the old offsets are then left as they were). -/
def Mpu.reconfigure (s : MpuState) (attrs : List (String × PValue))
    (openOk : Bool) : (Except PyErr Unit) × MpuState :=
  if openOk then
    (.ok (), { sensor := true,
               i2c_address := truncQ (getNumD attrs "i2c_address" 104),
               units := (getStrD attrs "units" "metric").toLower,
               sample_rate := truncQ (getNumD attrs "sample_rate" 100),
               accel_x_offset := 0, accel_y_offset := 0, accel_z_offset := 0,
               gyro_x_offset := 0, gyro_y_offset := 0, gyro_z_offset := 0 })
  else (.error .initError, { s with sensor := false })

/-! ## Barometer (src/models/bmp.py) -/

/-- Mutable attributes of a BmpSensor instance; `sensor = true` models a live
BMP085 handle. -/
structure BmpState where
  sensor : Bool
  sea_level_pressure : ℤ
  units : String
  pressure_offset : ℚ
  altitude_offset : ℚ
deriving DecidableEq

/-- The injected BMP085 device values for one call; `none` means the
corresponding read_* call raises. -/
structure BmpHw where
  temp : Option ℚ
  pressure : Option ℚ
  altitude : Option ℚ
deriving DecidableEq

/-- The readings dictionary BmpSensor.get_readings builds from raw values
t (temperature), rp (pressure) and ra (altitude). -/
def BmpSensor.readingsOf (s : BmpState) (t rp ra : ℚ) : List (String × ℚ) :=
  let pressure := rp - s.pressure_offset
  let altitude := ra - s.altitude_offset
  if s.units = "imperial" then
    [("temperature - F", t * (9 / 5) + 32),
     ("pressure - inHg", pressure * 0.0002953),
     ("altitude - ft", altitude * 3.28084),
     ("sea_level_pressure - inHg", (s.sea_level_pressure : ℚ) * 0.0002953),
     ("raw_pressure - inHg", rp * 0.0002953),
     ("raw_altitude - ft", ra * 3.28084),
     ("pressure_offset - inHg", s.pressure_offset * 0.0002953),
     ("altitude_offset - ft", s.altitude_offset * 3.28084)]
  else
    [("temperature - C", t),
     ("pressure - Pa", pressure),
     ("altitude - m", altitude),
     ("sea_level_pressure - Pa", (s.sea_level_pressure : ℚ)),
     ("raw_pressure - Pa", rp),
     ("raw_altitude - m", ra),
     ("pressure_offset - Pa", s.pressure_offset),
     ("altitude_offset - m", s.altitude_offset)]

/-- BmpSensor.get_readings: with no sensor, log and return {}; with a sensor,
read temperature, pressure and altitude, and on any exception log and return
{}.  The state (including the handle) is never mutated. -/
def BmpSensor.get_readings (s : BmpState) (hw : BmpHw) :
    (Except PyErr (List (String × ℚ))) × BmpState :=
  if s.sensor then
    match hw.temp, hw.pressure, hw.altitude with
    | some t, some rp, some ra => (.ok (BmpSensor.readingsOf s t rp ra), s)
    | _, _, _ => (.ok [], s)
  else (.ok [], s)

/-- BmpSensor.tare: raise RuntimeError when the sensor is absent; otherwise
assign pressure_offset from read_pressure and then altitude_offset from
read_altitude.  The first assignment happens before the second read, so a
failing altitude read re-raises with the new pressure offset already stored. -/
def BmpSensor.tare (s : BmpState) (hw : BmpHw) : (Except PyErr Unit) × BmpState :=
  if s.sensor then
    match hw.pressure with
    | none => (.error .readError, s)
    | some p =>
      match hw.altitude with
      | none => (.error .readError, { s with pressure_offset := p })
      | some a => (.ok (), { s with pressure_offset := p, altitude_offset := a })
  else (.error .notInitialized, s)

/-- BmpSensor.reset_tare: set both offsets to 0.0 (plain assignments, no
hardware access, cannot fail). -/
def BmpSensor.reset_tare (s : BmpState) : BmpState :=
  { s with pressure_offset := 0, altitude_offset := 0 }

/-- BmpSensor.do_command: result starts as {key: False}; "tare" dispatches to
tare (a raise aborts the whole call) and stores the offsets mapping,
"reset_tare" stores True, and any other name stores the unknown-command error
descriptor. -/
def BmpSensor.do_command (s : BmpState) (hw : BmpHw) (cmds : List String) :
    (Except PyErr (List (String × CmdValue))) × BmpState :=
  match cmds with
  | [] => (.ok [], s)
  | name :: rest =>
    if name = "tare" then
      match BmpSensor.tare s hw with
      | (.error e, s1) => (.error e, s1)
      | (.ok _, s1) =>
        match BmpSensor.do_command s1 hw rest with
        | (.ok r, s2) =>
          (.ok ((name, CmdValue.offsets
            [("pressure_offset", s1.pressure_offset),
             ("altitude_offset", s1.altitude_offset)]) :: r), s2)
        | (.error e, s2) => (.error e, s2)
    else if name = "reset_tare" then
      match BmpSensor.do_command (BmpSensor.reset_tare s) hw rest with
      | (.ok r, s2) => (.ok ((name, CmdValue.bool true) :: r), s2)
      | (.error e, s2) => (.error e, s2)
    else
      match BmpSensor.do_command s hw rest with
      | (.ok r, s2) =>
        (.ok ((name, CmdValue.errDesc ("Unknown command: " ++ name)
          ["tare", "reset_tare"]) :: r), s2)
      | (.error e, s2) => (.error e, s2)

/-- BmpSensor.reconfigure: open the I2C bus and a fresh BMP085 handle, set
the attributes from the config (with the source defaults) and zero both
offsets; if opening fails, self.sensor is set to None and the error is
re-raised. -/
def BmpSensor.reconfigure (s : BmpState) (attrs : List (String × PValue))
    (openOk : Bool) : (Except PyErr Unit) × BmpState :=
  if openOk then
    (.ok (), { sensor := true,
               sea_level_pressure := truncQ (getNumD attrs "sea_level_pressure" 101325),
               units := (getStrD attrs "units" "metric").toLower,
               pressure_offset := 0, altitude_offset := 0 })
  else (.error .initError, { s with sensor := false })

/-- The units check of BmpSensor.validate_config, performed after the
sea_level_pressure check: reject a non-string or unknown units value. -/
def BmpSensor.validateUnits (fields : List (String × PValue)) : Except String Unit :=
  match fields.lookup "units" with
  | some (PValue.num _) => .error "units must be a valid string"
  | some (PValue.str u) =>
    if u.toLower = "metric" ∨ u.toLower = "imperial" then .ok ()
    else .error "units must be either metric or imperial"
  | none => .ok ()

/-- BmpSensor.validate_config: reject a non-number sea_level_pressure or one
whose int() truncation is not positive, then reject a non-string or unknown
units value. -/
def BmpSensor.validate_config (fields : List (String × PValue)) : Except String Unit :=
  match fields.lookup "sea_level_pressure" with
  | some (PValue.str _) => .error "sea_level_pressure must be a valid number"
  | some (PValue.num q) =>
    if truncQ q ≤ 0 then .error "sea_level_pressure must be a positive number"
    else BmpSensor.validateUnits fields
  | none => BmpSensor.validateUnits fields

/-! ## Helper lemmas -/

/-- Distributing a sum over the per-sample tare subtraction and scaling. -/
theorem sum_map_sub_div (ms : List ℚ) (t c : ℚ) :
    (ms.map (fun m => (m - t) / c)).sum = (ms.sum - ms.length * t) / c := by
  induction ms with
  | nil => simp
  | cons m ms ih =>
    simp only [List.map_cons, List.sum_cons, ih, List.length_cons]
    push_cast
    ring

/-- Truncation toward zero (Python int()) is at least 1 exactly on rationals
that are at least 1. -/
theorem one_le_truncQ_iff (q : ℚ) : 1 ≤ truncQ q ↔ 1 ≤ q := by
  have hden : (0 : ℤ) < (q.den : ℤ) := by exact_mod_cast q.pos
  have hq : (1 : ℚ) ≤ q ↔ (q.den : ℤ) ≤ q.num := by
    rw [Rat.le_def]
    simp
  rcases le_or_lt 0 q.num with h | h
  · rw [truncQ, Int.tdiv_eq_ediv h (le_of_lt hden),
      Int.le_ediv_iff_mul_le hden, one_mul, hq]
  · have h0 : q.num.tdiv q.den ≤ 0 := by
      have hneg : (- -q.num).tdiv q.den = -((-q.num).tdiv q.den) := by
        rw [Int.neg_tdiv]
      have hn : 0 ≤ (-q.num).tdiv (q.den : ℤ) :=
        Int.tdiv_nonneg (by omega) (le_of_lt hden)
      rw [neg_neg] at hneg
      omega
    have hq1 : ¬ (1 : ℚ) ≤ q := by
      rw [hq]
      omega
    rw [truncQ]
    constructor
    · intro hcon
      omega
    · intro hcon
      exact absurd hcon hq1

/-! ## Concrete instances used by witnesses and counterexamples -/

/-- A load cell state with an open handle and the source-default configuration. -/
def lcOpen : LoadCellState :=
  { hx711 := true, gain := 64, doutPin := 5, sckPin := 6,
    numberOfReadings := 3, tare_offset := 0 }

/-- The same load cell previously tared at a -8200 raw-unit baseline. -/
def lcTared : LoadCellState := { lcOpen with tare_offset := -8200 }

/-- A transport producing the raw samples of the spec scenario. -/
def lcHwSamples : LoadCellHw := { openOk := true, samples := some [8200, 8205, 8195] }

/-- A transport whose raw read raises. -/
def lcHwFail : LoadCellHw := { openOk := true, samples := none }

/-! ## C1 -/

/-- C1: LoadCell.get_readings computes the weight as the unweighted arithmetic
mean of (sample - tare_offset) / 8200 over the raw samples; on the spec
scenario [8200, 8205, 8195] that weight is 1 kg for tare offset 0 and
2 kg for tare offset -8200. -/
theorem loadcell_weight_is_mean :
    (∀ (s : LoadCellState) (hw : LoadCellHw) (ms : List ℚ),
        s.hx711 = true → hw.samples = some ms → ms ≠ [] →
        ((LoadCell.get_readings s hw).1.toOption.map LoadCellReadings.weight) =
          some ((ms.map (fun m => (m - s.tare_offset) / 8200)).sum / (ms.length : ℚ))) ∧
    ((LoadCell.get_readings lcOpen lcHwSamples).1.toOption.map LoadCellReadings.weight
        = some 1) ∧
    ((LoadCell.get_readings lcTared lcHwSamples).1.toOption.map LoadCellReadings.weight
        = some 2) := by
  refine ⟨?_, ?_, ?_⟩
  · intro s hw ms hs hsamp hne
    simp [LoadCell.get_readings, LoadCell.get_hx711, hs, hsamp, hne, Except.toOption]
  · simp [LoadCell.get_readings, LoadCell.get_hx711, lcOpen, lcHwSamples,
      Except.toOption]
    norm_num
  · simp [LoadCell.get_readings, LoadCell.get_hx711, lcOpen, lcTared, lcHwSamples,
      Except.toOption]
    norm_num

/-- Witness for the C1 theorem at the concrete spec scenario. -/
theorem loadcell_weight_is_mean_witness :
    ((LoadCell.get_readings lcOpen lcHwSamples).1.toOption.map LoadCellReadings.weight) =
      some (((([8200, 8205, 8195] : List ℚ)).map
          (fun m => (m - lcOpen.tare_offset) / 8200)).sum /
        ((([8200, 8205, 8195] : List ℚ)).length : ℚ)) :=
  loadcell_weight_is_mean.1 lcOpen lcHwSamples [8200, 8205, 8195] rfl rfl
    (List.cons_ne_nil _ _)

/-! ## C9 -/

/-- The rational one half, the sea-level pressure of the counterexample. -/
def halfQ : ℚ := 1/2

/-- A barometer configuration whose sea_level_pressure is one half. -/
def bmpHalfCfg : List (String × PValue) := [("sea_level_pressure", PValue.num halfQ)]

/-- C9 counterexample: sea_level_pressure = 0.5 is a number strictly greater
than 0, yet BmpSensor.validate_config rejects the configuration, because
int() truncates 0.5 to 0 before the positivity check. -/
theorem bmp_validate_rejects_half :
    (0 : ℚ) < halfQ ∧
    BmpSensor.validate_config bmpHalfCfg =
      .error "sea_level_pressure must be a positive number" := by
  have h2 : ¬ (1 : ℤ) ≤ truncQ halfQ := fun hh =>
    absurd ((one_le_truncQ_iff _).mp hh) (by norm_num [halfQ])
  have h : truncQ halfQ ≤ 0 := by omega
  refine ⟨by norm_num [halfQ], ?_⟩
  simp [BmpSensor.validate_config, bmpHalfCfg, List.lookup, h]

/-- C9 (amended): on a configuration carrying only the sea_level_pressure
field, BmpSensor.validate_config accepts exactly when the field is a number
whose value is at least 1 (int() truncation sends values in (0, 1) to 0,
which the positivity check then rejects); a non-number value is always
rejected. -/
theorem bmp_validate_sea_level_policy :
    (∀ q : ℚ,
        (BmpSensor.validate_config [("sea_level_pressure", PValue.num q)] = .ok ())
          ↔ 1 ≤ q) ∧
    (∀ t : String,
        BmpSensor.validate_config [("sea_level_pressure", PValue.str t)] =
          .error "sea_level_pressure must be a valid number") := by
  constructor
  · intro q
    rw [← one_le_truncQ_iff]
    simp only [BmpSensor.validate_config, BmpSensor.validateUnits, List.lookup]
    by_cases h : truncQ q ≤ 0
    · simp [h]
      omega
    · simp [h]
      omega
  · intro t
    simp [BmpSensor.validate_config, List.lookup]

/-- Witness for the C9 theorem at the concrete value 2. -/
theorem bmp_validate_sea_level_policy_witness :
    (BmpSensor.validate_config [("sea_level_pressure", PValue.num 2)] = .ok ())
      ↔ (1 : ℚ) ≤ 2 :=
  bmp_validate_sea_level_policy.1 2

/-- An IMU state with a live sensor, metric units and zero offsets. -/
def mpuOpen : MpuState :=
  { sensor := true, i2c_address := 104, units := "metric", sample_rate := 100,
    accel_x_offset := 0, accel_y_offset := 0, accel_z_offset := 0,
    gyro_x_offset := 0, gyro_y_offset := 0, gyro_z_offset := 0 }

/-- An MPU transport in which every device read raises. -/
def mpuHwFail : MpuHw := { accel := none, gyro := none, temp := none }

/-- A barometer state with a live sensor, metric units and zero offsets. -/
def bmpOpen : BmpState :=
  { sensor := true, sea_level_pressure := 101325, units := "metric",
    pressure_offset := 0, altitude_offset := 0 }

/-- A BMP transport in which every device read raises. -/
def bmpHwFail : BmpHw := { temp := none, pressure := none, altitude := none }

/-! ## C2 -/

/-- C2 counterexample: with a live IMU handle and a raising device read,
Mpu.get_readings neither discards the handle (sensor stays set) nor re-raises
(it returns an empty mapping), contradicting the discard-and-re-raise claim
for every adapter. -/
theorem mpu_read_failure_keeps_handle :
    mpuHwFail.accel = none ∧
    (Mpu.get_readings mpuOpen mpuHwFail).2.sensor = true ∧
    (Mpu.get_readings mpuOpen mpuHwFail).1 = .ok [] :=
  ⟨rfl, rfl, rfl⟩

/-- C2 (amended): only the load cell discards its handle on a read or tare
failure and re-raises, after which the next read performs exactly one
additional open; the IMU and the barometer keep their handle — their
get_readings swallows the error (empty mapping) and their tare re-raises with
the handle untouched. -/
theorem handle_failure_policy :
    (∀ (s : LoadCellState) (hw : LoadCellHw), s.hx711 = true → hw.samples = none →
        LoadCell.get_readings s hw = (.error .readError, { s with hx711 := false }, 0)) ∧
    (∀ (s : LoadCellState) (hw : LoadCellHw), s.hx711 = true → hw.samples = none →
        LoadCell.tare s hw = (.error .readError, { s with hx711 := false }, 0)) ∧
    (∀ (s : LoadCellState) (hw hw' : LoadCellHw), s.hx711 = true →
        hw.samples = none → hw'.openOk = true →
        (LoadCell.get_readings ((LoadCell.get_readings s hw).2.1) hw').2.2 = 1) ∧
    (∀ (s : MpuState) (hw : MpuHw), s.sensor = true →
        (hw.accel = none ∨ hw.gyro = none ∨ hw.temp = none) →
        Mpu.get_readings s hw = (.ok [], s)) ∧
    (∀ (s : MpuState) (hw : MpuHw), s.sensor = true →
        (hw.accel = none ∨ hw.gyro = none) →
        Mpu.tare s hw = (.error .readError, s)) ∧
    (∀ (s : BmpState) (hw : BmpHw), s.sensor = true →
        (hw.temp = none ∨ hw.pressure = none ∨ hw.altitude = none) →
        BmpSensor.get_readings s hw = (.ok [], s)) ∧
    (∀ (s : BmpState) (hw : BmpHw), s.sensor = true →
        (hw.pressure = none ∨ hw.altitude = none) →
        (BmpSensor.tare s hw).1 = .error .readError ∧
        (BmpSensor.tare s hw).2.sensor = s.sensor) := by
  refine ⟨?_, ?_, ?_, ?_, ?_, ?_, ?_⟩
  · intro s hw hs hsamp
    simp [LoadCell.get_readings, LoadCell.get_hx711, hs, hsamp]
  · intro s hw hs hsamp
    simp [LoadCell.tare, LoadCell.get_hx711, hs, hsamp]
  · intro s hw hw' hs hsamp hopen
    have h1 : (LoadCell.get_readings s hw).2.1 = { s with hx711 := false } := by
      simp [LoadCell.get_readings, LoadCell.get_hx711, hs, hsamp]
    rw [h1]
    cases hms : hw'.samples with
    | none => simp [LoadCell.get_readings, LoadCell.get_hx711, hopen, hms]
    | some ms =>
      by_cases hne : ms = [] <;>
        simp [LoadCell.get_readings, LoadCell.get_hx711, hopen, hms, hne]
  · intro s hw hs hfail
    cases ha : hw.accel <;> cases hg : hw.gyro <;> cases ht : hw.temp <;>
      simp_all [Mpu.get_readings]
  · intro s hw hs hfail
    cases ha : hw.accel <;> cases hg : hw.gyro <;> simp_all [Mpu.tare]
  · intro s hw hs hfail
    cases ht : hw.temp <;> cases hp : hw.pressure <;> cases ha : hw.altitude <;>
      simp_all [BmpSensor.get_readings]
  · intro s hw hs hfail
    cases hp : hw.pressure <;> cases ha : hw.altitude <;>
      simp_all [BmpSensor.tare]

/-- Witness for the C2 theorem: the IMU conjunct at a concrete state. -/
theorem handle_failure_policy_witness :
    Mpu.get_readings mpuOpen mpuHwFail = (.ok [], mpuOpen) :=
  handle_failure_policy.2.2.2.1 mpuOpen mpuHwFail rfl (Or.inl rfl)

/-! ## C3 -/

/-- C3 counterexample: with live handles and raising device reads, the IMU and
the barometer get_readings return an empty mapping instead of re-raising;
the load cell is the adapter that re-raises. -/
theorem read_error_counterexample :
    Mpu.get_readings mpuOpen mpuHwFail = (.ok [], mpuOpen) ∧
    BmpSensor.get_readings bmpOpen bmpHwFail = (.ok [], bmpOpen) ∧
    (LoadCell.get_readings lcOpen lcHwFail).1 = .error .readError := by
  refine ⟨rfl, rfl, ?_⟩
  simp [LoadCell.get_readings, LoadCell.get_hx711, lcOpen, lcHwFail]

/-- C3 (amended): when obtaining the raw sample fails, the IMU and the
barometer get_readings swallow the error and return an empty mapping after
logging, while the load cell (the remaining adapter) re-raises to the
caller. -/
theorem read_error_policy :
    (∀ (s : MpuState) (hw : MpuHw), s.sensor = true →
        (hw.accel = none ∨ hw.gyro = none ∨ hw.temp = none) →
        Mpu.get_readings s hw = (.ok [], s)) ∧
    (∀ (s : BmpState) (hw : BmpHw), s.sensor = true →
        (hw.temp = none ∨ hw.pressure = none ∨ hw.altitude = none) →
        BmpSensor.get_readings s hw = (.ok [], s)) ∧
    (∀ (s : LoadCellState) (hw : LoadCellHw), s.hx711 = true → hw.samples = none →
        (LoadCell.get_readings s hw).1 = .error .readError) := by
  refine ⟨?_, ?_, ?_⟩
  · intro s hw hs hfail
    cases ha : hw.accel <;> cases hg : hw.gyro <;> cases ht : hw.temp <;>
      simp_all [Mpu.get_readings]
  · intro s hw hs hfail
    cases ht : hw.temp <;> cases hp : hw.pressure <;> cases ha : hw.altitude <;>
      simp_all [BmpSensor.get_readings]
  · intro s hw hs hsamp
    simp [LoadCell.get_readings, LoadCell.get_hx711, hs, hsamp]

/-- Witness for the C3 theorem: the IMU conjunct at a concrete state. -/
theorem read_error_policy_witness :
    Mpu.get_readings mpuOpen mpuHwFail = (.ok [], mpuOpen) :=
  read_error_policy.1 mpuOpen mpuHwFail rfl (Or.inl rfl)

/-! ## C4 -/

/-- C4: the load cell do_command maps an unknown command name to False
(its dispatcher has no unknown-command branch), instead of the error
descriptor with `error` and `available_commands` keys that the IMU and the
barometer produce and that the load cell test suite expects. -/
theorem unknown_command_policy :
    LoadCell.do_command lcOpen lcHwSamples ["unknown_command"] =
      (.ok [("unknown_command", CmdValue.bool false)], lcOpen, 0) ∧
    (∀ (s : MpuState) (hw : MpuHw) (name : String),
        name ≠ "tare" → name ≠ "reset_tare" →
        Mpu.do_command s hw [name] =
          (.ok [(name, CmdValue.errDesc ("Unknown command: " ++ name)
            ["tare", "reset_tare"])], s)) ∧
    (∀ (s : BmpState) (hw : BmpHw) (name : String),
        name ≠ "tare" → name ≠ "reset_tare" →
        BmpSensor.do_command s hw [name] =
          (.ok [(name, CmdValue.errDesc ("Unknown command: " ++ name)
            ["tare", "reset_tare"])], s)) := by
  refine ⟨?_, ?_, ?_⟩
  · simp [LoadCell.do_command]
  · intro s hw name h1 h2
    simp [Mpu.do_command, h1, h2]
  · intro s hw name h1 h2
    simp [BmpSensor.do_command, h1, h2]

/-- Witness for the C4 theorem: the IMU conjunct at a concrete name. -/
theorem unknown_command_policy_witness :
    Mpu.do_command mpuOpen mpuHwFail ["unknown_command"] =
      (.ok [("unknown_command", CmdValue.errDesc "Unknown command: unknown_command"
        ["tare", "reset_tare"])], mpuOpen) := by
  have h := unknown_command_policy.2.1 mpuOpen mpuHwFail "unknown_command"
    (by decide) (by decide)
  simpa using h

/-! ## C5 -/

/-- A BMP transport in which the pressure read succeeds and the altitude read
raises. -/
def bmpHwAltFail : BmpHw :=
  { temp := some 20, pressure := some 101325, altitude := none }

/-- C5 counterexample: a barometer tare whose altitude read fails re-raises,
but the pressure offset has already been replaced by then, so not every
TareState offset is left exactly as it was before the call. -/
theorem bmp_tare_partial_update :
    (BmpSensor.tare bmpOpen bmpHwAltFail).1 = .error .readError ∧
    bmpOpen.pressure_offset = 0 ∧
    (BmpSensor.tare bmpOpen bmpHwAltFail).2.pressure_offset = 101325 :=
  ⟨rfl, rfl, rfl⟩

/-- C5 (amended): tare stores the freshly read raw sample (for the load cell
the mean of the samples) as the new offsets, replacing prior offsets
unconditionally, and on a failed read the error propagates; the load cell and
the IMU then leave every offset unchanged, but the barometer, when its
pressure read succeeds and its altitude read fails, has already stored the
new pressure offset. -/
theorem tare_policy :
    (∀ (s : LoadCellState) (hw : LoadCellHw) (ms : List ℚ),
        s.hx711 = true → hw.samples = some ms → ms ≠ [] →
        LoadCell.tare s hw =
          (.ok (), { s with tare_offset := ms.sum / (ms.length : ℚ) }, 0)) ∧
    (∀ (s : LoadCellState) (hw : LoadCellHw), s.hx711 = true → hw.samples = none →
        (LoadCell.tare s hw).1 = .error .readError ∧
        (LoadCell.tare s hw).2.1.tare_offset = s.tare_offset) ∧
    (∀ (s : MpuState) (hw : MpuHw) (a g : ℚ × ℚ × ℚ),
        s.sensor = true → hw.accel = some a → hw.gyro = some g →
        Mpu.tare s hw =
          (.ok (), { s with accel_x_offset := a.1, accel_y_offset := a.2.1,
                            accel_z_offset := a.2.2, gyro_x_offset := g.1,
                            gyro_y_offset := g.2.1, gyro_z_offset := g.2.2 })) ∧
    (∀ (s : MpuState) (hw : MpuHw), s.sensor = true →
        (hw.accel = none ∨ hw.gyro = none) →
        Mpu.tare s hw = (.error .readError, s)) ∧
    (∀ (s : BmpState) (hw : BmpHw) (p a : ℚ),
        s.sensor = true → hw.pressure = some p → hw.altitude = some a →
        BmpSensor.tare s hw =
          (.ok (), { s with pressure_offset := p, altitude_offset := a })) ∧
    (∀ (s : BmpState) (hw : BmpHw), s.sensor = true → hw.pressure = none →
        BmpSensor.tare s hw = (.error .readError, s)) ∧
    (∀ (s : BmpState) (hw : BmpHw) (p : ℚ),
        s.sensor = true → hw.pressure = some p → hw.altitude = none →
        BmpSensor.tare s hw = (.error .readError, { s with pressure_offset := p })) := by
  refine ⟨?_, ?_, ?_, ?_, ?_, ?_, ?_⟩
  · intro s hw ms hs hsamp hne
    simp [LoadCell.tare, LoadCell.get_hx711, hs, hsamp, hne]
  · intro s hw hs hsamp
    simp [LoadCell.tare, LoadCell.get_hx711, hs, hsamp]
  · intro s hw a g hs ha hg
    simp [Mpu.tare, hs, ha, hg]
  · intro s hw hs hfail
    cases ha : hw.accel <;> cases hg : hw.gyro <;> simp_all [Mpu.tare]
  · intro s hw p a hs hp ha
    simp [BmpSensor.tare, hs, hp, ha]
  · intro s hw hs hp
    simp [BmpSensor.tare, hs, hp]
  · intro s hw p hs hp ha
    simp [BmpSensor.tare, hs, hp, ha]

/-- Witness for the C5 theorem: the load cell conjunct at the spec scenario. -/
theorem tare_policy_witness :
    LoadCell.tare lcOpen lcHwSamples =
      (.ok (), { lcOpen with tare_offset :=
        (([8200, 8205, 8195] : List ℚ)).sum /
          ((([8200, 8205, 8195] : List ℚ)).length : ℚ) }, 0) :=
  tare_policy.1 lcOpen lcHwSamples [8200, 8205, 8195] rfl rfl (List.cons_ne_nil _ _)

/-! ## C6 -/

/-- A load cell state with an open handle and a nonzero tare offset. -/
def lcTared5 : LoadCellState := { lcOpen with tare_offset := 5 }

/-- C6 counterexample: the load cell defines no reset_tare operation — its
command dispatcher returns False for the name "reset_tare" and leaves the
nonzero tare offset in place, so reset_tare does not set every offset of
every adapter to 0. -/
theorem loadcell_reset_tare_missing :
    LoadCell.do_command lcTared5 lcHwSamples ["reset_tare"] =
      (.ok [("reset_tare", CmdValue.bool false)], lcTared5, 0) ∧
    lcTared5.tare_offset = 5 := by
  constructor
  · simp [LoadCell.do_command]
  · rfl

/-- C6 (amended): for the IMU and the barometer, reset_tare sets every offset
to 0.0, cannot fail, and leaves the handle (and the rest of the state)
untouched; the load cell has no reset_tare operation — its command
dispatcher leaves the state unchanged and reports False for that name. -/
theorem reset_tare_policy :
    (∀ s : MpuState, Mpu.reset_tare s =
      { s with accel_x_offset := 0, accel_y_offset := 0, accel_z_offset := 0,
               gyro_x_offset := 0, gyro_y_offset := 0, gyro_z_offset := 0 }) ∧
    (∀ s : MpuState, (Mpu.reset_tare s).sensor = s.sensor) ∧
    (∀ s : BmpState, BmpSensor.reset_tare s =
      { s with pressure_offset := 0, altitude_offset := 0 }) ∧
    (∀ s : BmpState, (BmpSensor.reset_tare s).sensor = s.sensor) ∧
    (∀ (s : LoadCellState) (hw : LoadCellHw),
        LoadCell.do_command s hw ["reset_tare"] =
          (.ok [("reset_tare", CmdValue.bool false)], s, 0)) := by
  refine ⟨fun s => rfl, fun s => rfl, fun s => rfl, fun s => rfl, ?_⟩
  intro s hw
  simp [LoadCell.do_command]

/-- Witness for the C6 theorem: the IMU conjunct at a concrete state. -/
theorem reset_tare_policy_witness :
    Mpu.reset_tare mpuOpen =
      { mpuOpen with accel_x_offset := 0, accel_y_offset := 0, accel_z_offset := 0,
                     gyro_x_offset := 0, gyro_y_offset := 0, gyro_z_offset := 0 } :=
  reset_tare_policy.1 mpuOpen

/-! ## C7 -/

/-- C7: for each adapter, tare followed immediately by get_readings on the
same raw input yields a post-offset reading of exactly 0 for every tared
quantity (the weight; the six IMU axes; pressure and altitude, the entries at
positions 1 and 2 of the barometer reading list). -/
theorem tare_then_read_zero :
    (∀ (s : LoadCellState) (hw : LoadCellHw) (ms : List ℚ),
        s.hx711 = true → hw.samples = some ms → ms ≠ [] →
        ((LoadCell.get_readings ((LoadCell.tare s hw).2.1) hw).1.toOption.map
          LoadCellReadings.weight) = some 0) ∧
    (∀ (s : MpuState) (hw : MpuHw) (a g : ℚ × ℚ × ℚ) (t : ℚ),
        s.sensor = true → hw.accel = some a → hw.gyro = some g → hw.temp = some t →
        ∃ l, (Mpu.get_readings ((Mpu.tare s hw).2) hw).1 = .ok l ∧
          ∀ p ∈ l.take 6, p.2 = 0) ∧
    (∀ (s : BmpState) (hw : BmpHw) (t rp ra : ℚ),
        s.sensor = true → hw.temp = some t → hw.pressure = some rp →
        hw.altitude = some ra →
        ∃ l, (BmpSensor.get_readings ((BmpSensor.tare s hw).2) hw).1 = .ok l ∧
          (l[1]?.map Prod.snd) = some 0 ∧ (l[2]?.map Prod.snd) = some 0) := by
  refine ⟨?_, ?_, ?_⟩
  · intro s hw ms hs hsamp hne
    have hlen : (ms.length : ℚ) ≠ 0 := by
      simp [List.length_eq_zero, hne]
    have hz : ms.sum - (ms.length : ℚ) * (ms.sum / (ms.length : ℚ)) = 0 := by
      field_simp
    simp [LoadCell.get_readings, LoadCell.tare, LoadCell.get_hx711, hs, hsamp, hne,
      Except.toOption, sum_map_sub_div, hz]
  · intro s hw a g t hs ha hg ht
    refine ⟨Mpu.readingsOf ((Mpu.tare s hw).2) a g t, ?_, ?_⟩
    · have hs2 : ((Mpu.tare s hw).2).sensor = true := by
        simp [Mpu.tare, hs, ha, hg]
      simp [Mpu.get_readings, hs2, ha, hg, ht]
    · by_cases hu : s.units = "imperial" <;>
        simp [Mpu.readingsOf, Mpu.tare, hs, ha, hg, hu]
  · intro s hw t rp ra hs ht hp ha
    refine ⟨BmpSensor.readingsOf ((BmpSensor.tare s hw).2) t rp ra, ?_, ?_⟩
    · have hs2 : ((BmpSensor.tare s hw).2).sensor = true := by
        simp [BmpSensor.tare, hs, hp, ha]
      simp [BmpSensor.get_readings, hs2, ht, hp, ha]
    · by_cases hu : s.units = "imperial" <;>
        simp [BmpSensor.readingsOf, BmpSensor.tare, hs, hp, ha, hu]

/-- Witness for the C7 theorem: the load cell conjunct at the spec scenario. -/
theorem tare_then_read_zero_witness :
    ((LoadCell.get_readings ((LoadCell.tare lcOpen lcHwSamples).2.1)
      lcHwSamples).1.toOption.map LoadCellReadings.weight) = some 0 :=
  tare_then_read_zero.1 lcOpen lcHwSamples [8200, 8205, 8195] rfl rfl
    (List.cons_ne_nil _ _)

/-! ## C8 -/

/-- The reconfiguration attributes of the C8 counterexample: an explicit
nonzero (valid, non-positive) tare_offset. -/
def lcCfgNeg : List (String × PValue) := [("tare_offset", PValue.num (-100))]

/-- C8 counterexample: reconfiguring a load cell that already has an open
handle keeps the handle (zero opens are performed) and sets the tare offset
to the configured -100 rather than resetting it to zero. -/
theorem loadcell_reconfigure_keeps_handle :
    (LoadCell.reconfigure lcTared5 lcCfgNeg lcHwSamples).2.1.hx711 = true ∧
    (LoadCell.reconfigure lcTared5 lcCfgNeg lcHwSamples).2.2 = 0 ∧
    (LoadCell.reconfigure lcTared5 lcCfgNeg lcHwSamples).2.1.tare_offset = -100 :=
  ⟨rfl, rfl, rfl⟩

/-- C8 (amended): the IMU and the barometer reconfigure replace the handle
with a freshly opened one (an open is attempted on every call, and a failed
open clears the handle) and reset all offsets to zero; the load cell
reconfigure keeps an already-open handle, performing no open, and sets the
tare offset to the configured tare_offset value (default 0), not necessarily
zero. -/
theorem reconfigure_policy :
    (∀ (s : MpuState) (attrs : List (String × PValue)),
        Mpu.reconfigure s attrs true =
          (.ok (), { sensor := true,
                     i2c_address := truncQ (getNumD attrs "i2c_address" 104),
                     units := (getStrD attrs "units" "metric").toLower,
                     sample_rate := truncQ (getNumD attrs "sample_rate" 100),
                     accel_x_offset := 0, accel_y_offset := 0, accel_z_offset := 0,
                     gyro_x_offset := 0, gyro_y_offset := 0, gyro_z_offset := 0 })) ∧
    (∀ (s : MpuState) (attrs : List (String × PValue)),
        Mpu.reconfigure s attrs false =
          (.error .initError, { s with sensor := false })) ∧
    (∀ (s : BmpState) (attrs : List (String × PValue)),
        BmpSensor.reconfigure s attrs true =
          (.ok (), { sensor := true,
                     sea_level_pressure :=
                       truncQ (getNumD attrs "sea_level_pressure" 101325),
                     units := (getStrD attrs "units" "metric").toLower,
                     pressure_offset := 0, altitude_offset := 0 })) ∧
    (∀ (s : LoadCellState) (attrs : List (String × PValue)) (hw : LoadCellHw),
        s.hx711 = true →
        (LoadCell.reconfigure s attrs hw).2.2 = 0 ∧
        (LoadCell.reconfigure s attrs hw).2.1.hx711 = true ∧
        (LoadCell.reconfigure s attrs hw).2.1.tare_offset =
          getNumD attrs "tare_offset" 0) := by
  refine ⟨fun s attrs => rfl, fun s attrs => rfl, fun s attrs => rfl, ?_⟩
  intro s attrs hw hs
  refine ⟨?_, ?_, ?_⟩ <;> simp [LoadCell.reconfigure, hs]

/-- Witness for the C8 theorem: the load cell conjunct at a concrete state. -/
theorem reconfigure_policy_witness :
    (LoadCell.reconfigure lcOpen lcCfgNeg lcHwSamples).2.2 = 0 ∧
    (LoadCell.reconfigure lcOpen lcCfgNeg lcHwSamples).2.1.hx711 = true ∧
    (LoadCell.reconfigure lcOpen lcCfgNeg lcHwSamples).2.1.tare_offset =
      getNumD lcCfgNeg "tare_offset" 0 :=
  reconfigure_policy.2.2.2 lcOpen lcCfgNeg lcHwSamples rfl

/-! ## C10 -/

/-- An IMU state whose initialization previously failed (no sensor handle). -/
def mpuDown : MpuState := { mpuOpen with sensor := false }

/-- A barometer state whose initialization previously failed. -/
def bmpDown : BmpState := { bmpOpen with sensor := false }

/-- C10: with the sensor handle absent, the IMU and the barometer
get_readings return the empty mapping without raising and independently of
the device values (no hardware access), while tare in the same state raises
RuntimeError (Sensor not initialized) and leaves the state, offsets
included, unchanged. -/
theorem uninitialized_policy :
    (∀ (s : MpuState) (hw : MpuHw), s.sensor = false →
        Mpu.get_readings s hw = (.ok [], s)) ∧
    (∀ (s : MpuState) (hw hw' : MpuHw), s.sensor = false →
        Mpu.get_readings s hw = Mpu.get_readings s hw') ∧
    (∀ (s : MpuState) (hw : MpuHw), s.sensor = false →
        Mpu.tare s hw = (.error .notInitialized, s)) ∧
    (∀ (s : BmpState) (hw : BmpHw), s.sensor = false →
        BmpSensor.get_readings s hw = (.ok [], s)) ∧
    (∀ (s : BmpState) (hw hw' : BmpHw), s.sensor = false →
        BmpSensor.get_readings s hw = BmpSensor.get_readings s hw') ∧
    (∀ (s : BmpState) (hw : BmpHw), s.sensor = false →
        BmpSensor.tare s hw = (.error .notInitialized, s)) := by
  refine ⟨?_, ?_, ?_, ?_, ?_, ?_⟩
  · intro s hw h
    simp [Mpu.get_readings, h]
  · intro s hw hw' h
    simp [Mpu.get_readings, h]
  · intro s hw h
    simp [Mpu.tare, h]
  · intro s hw h
    simp [BmpSensor.get_readings, h]
  · intro s hw hw' h
    simp [BmpSensor.get_readings, h]
  · intro s hw h
    simp [BmpSensor.tare, h]

/-- Witness for the C10 theorem: the IMU conjuncts at a concrete state. -/
theorem uninitialized_policy_witness :
    Mpu.get_readings mpuDown mpuHwFail = (.ok [], mpuDown) ∧
    Mpu.tare mpuDown mpuHwFail = (.error .notInitialized, mpuDown) :=
  ⟨uninitialized_policy.1 mpuDown mpuHwFail rfl,
   uninitialized_policy.2.2.1 mpuDown mpuHwFail rfl⟩
